import Mathlib

/-!
Verification development for the dbt2looker translation engine
(src/dbt2looker/models.py and src/dbt2looker/generator.py).

The Python source is shallowly embedded:
* pydantic models become Lean structures; `Optional[T]` fields become `Option T`
  and declared defaults become Lean default field values.  Fields that the
  pydantic schema types as `list | None` / `model | None` but initialises with a
  non-None default and that the generator dereferences unconditionally are
  embedded at their non-None shape.
* Python dicts become insertion-ordered association lists (`LDict` below) with
  Python assignment semantics (update in place, else append).
* code that can raise returns `Except PyErr`; Python `x or y` truthiness is
  modelled by explicit truthiness helpers.
* `str.upper()` / `str.lower()` are modelled on their ASCII behaviour (all SQL
  type names and generated keys in this program are ASCII).
* note: models.py line 200 spells the per-column dimension-override field
  `Dbt2LookerMeta.dimensions` while generator.py reads `meta.dimension`
  (lines 260, 265, 286, 291, 385).  The embedding keeps models.py's field
  name `dimensions` and models every `meta.dimension` read as the
  `AttributeError` it raises (`columnMetaDimension` below).
-/

/-- Python runtime errors that the embedded code can raise. -/
inductive PyErr where
  /-- e.g. `re.sub`/`re.match` applied to `None`, or iterating `None`. -/
  | typeError : PyErr
  /-- attribute access on `None` (e.g. `column.name` when `column is None`). -/
  | attributeError : PyErr
  /-- `ValueError` / pydantic validation error carrying its message. -/
  | valueError : String → PyErr
deriving DecidableEq, Repr

/-- `models.SupportedDbtAdapters` (str enum). -/
inductive SupportedDbtAdapters where
  | bigquery | postgres | redshift | snowflake | spark
deriving DecidableEq, Repr

/-- `.value` of the str enum `SupportedDbtAdapters`. -/
def SupportedDbtAdapters.value : SupportedDbtAdapters → String
  | .bigquery => "bigquery"
  | .postgres => "postgres"
  | .redshift => "redshift"
  | .snowflake => "snowflake"
  | .spark => "spark"

/-- `models.LookerMeasureType` (str enum). -/
inductive LookerMeasureType where
  | number | string | average | average_distinct | count | count_distinct
  | list | max | median | median_distinct | min | sum | sum_distinct
deriving DecidableEq, Repr

/-- `.value` of the str enum `LookerMeasureType`. -/
def LookerMeasureType.value : LookerMeasureType → String
  | .number => "number"
  | .string => "string"
  | .average => "average"
  | .average_distinct => "average_distinct"
  | .count => "count"
  | .count_distinct => "count_distinct"
  | .list => "list"
  | .max => "max"
  | .median => "median"
  | .median_distinct => "median_distinct"
  | .min => "min"
  | .sum => "sum"
  | .sum_distinct => "sum_distinct"

/-- `models.LookerDimensionType` (str enum; the member `unqoted` is spelled
that way in the source, with value `"unquoted"`). -/
inductive LookerDimensionType where
  | bin | date | date_time | distance | duration | location | number
  | string | time | unqoted | yesno | zipcode
deriving DecidableEq, Repr

/-- `.value` of the str enum `LookerDimensionType`. -/
def LookerDimensionType.value : LookerDimensionType → String
  | .bin => "bin"
  | .date => "date"
  | .date_time => "date_time"
  | .distance => "distance"
  | .duration => "duration"
  | .location => "location"
  | .number => "number"
  | .string => "string"
  | .time => "time"
  | .unqoted => "unquoted"
  | .yesno => "yesno"
  | .zipcode => "zipcode"

/-- `models.LookerParameterType` (str enum). -/
inductive LookerParameterType where
  | string | yesno | unquoted | date_time
deriving DecidableEq, Repr

/-- `.value` of the str enum `LookerParameterType`. -/
def LookerParameterType.value : LookerParameterType → String
  | .string => "string"
  | .yesno => "yesno"
  | .unquoted => "unquoted"
  | .date_time => "date_time"

/-- `models.LookerJoinType` (str enum). -/
inductive LookerJoinType where
  | left_outer | full_outer | inner | cross
deriving DecidableEq, Repr

/-- `.value` of the str enum `LookerJoinType`. -/
def LookerJoinType.value : LookerJoinType → String
  | .left_outer => "left_outer"
  | .full_outer => "full_outer"
  | .inner => "inner"
  | .cross => "cross"

/-- `models.LookerJoinRelationship` (str enum). -/
inductive LookerJoinRelationship where
  | many_to_one | many_to_many | one_to_many | one_to_one
deriving DecidableEq, Repr

/-- `.value` of the str enum `LookerJoinRelationship`. -/
def LookerJoinRelationship.value : LookerJoinRelationship → String
  | .many_to_one => "many_to_one"
  | .many_to_many => "many_to_many"
  | .one_to_many => "one_to_many"
  | .one_to_one => "one_to_one"

/-- `models.LookerValueFormatName` (str enum). -/
inductive LookerValueFormatName where
  | decimal_0 | decimal_1 | decimal_2 | decimal_3 | decimal_4
  | usd_0 | usd | gbp_0 | gbp | eur_0 | eur | id
  | percent_0 | percent_1 | percent_2 | percent_3 | percent_4
deriving DecidableEq, Repr

/-- `.value` of the str enum `LookerValueFormatName`. -/
def LookerValueFormatName.value : LookerValueFormatName → String
  | .decimal_0 => "decimal_0"
  | .decimal_1 => "decimal_1"
  | .decimal_2 => "decimal_2"
  | .decimal_3 => "decimal_3"
  | .decimal_4 => "decimal_4"
  | .usd_0 => "usd_0"
  | .usd => "usd"
  | .gbp_0 => "gbp_0"
  | .gbp => "gbp"
  | .eur_0 => "eur_0"
  | .eur => "eur"
  | .id => "id"
  | .percent_0 => "percent_0"
  | .percent_1 => "percent_1"
  | .percent_2 => "percent_2"
  | .percent_3 => "percent_3"
  | .percent_4 => "percent_4"

/-- `models.LookerBooleanType` (str enum). -/
inductive LookerBooleanType where
  | yes | no
deriving DecidableEq, Repr

/-- `.value` of the str enum `LookerBooleanType`. -/
def LookerBooleanType.value : LookerBooleanType → String
  | .yes => "yes"
  | .no => "no"

/-- `models.LookerParameterAllowedValue`. -/
structure LookerParameterAllowedValue where
  value : String
  label : String
deriving DecidableEq, Repr

/-- `models.LookerLinkType`. -/
structure LookerLinkType where
  label : String
  url : String
  icon_url : Option String := none
deriving DecidableEq, Repr

/-- `models.Dbt2LookerBaseField`. -/
structure Dbt2LookerBaseField where
  enabled : Bool := true
  group_item_label : Option String := none
  group_label : Option String := none
  hidden : Option LookerBooleanType := none
  html : Option String := none
  label : Option String := none
  links : Option (List LookerLinkType) := none
  required_access_grants : Option (List String) := none
  required_fields : Option (List String) := none
  suggestable : Option LookerBooleanType := none
  suggestions : Option (List String) := none
  tags : Option (List String) := none
  value_format : Option String := none
  value_format_name : Option LookerValueFormatName := none
  view_label : Option String := none
deriving DecidableEq, Repr

/-- A measure filter entry: a Python `dict[str, str]` (column name → filter
expression), embedded as an insertion-ordered association list. -/
abbrev FilterDict := List (String × String)

/-- `models.Dbt2LookerMeasure` (extends `Dbt2LookerBaseField`).
`filters: list[dict[str, str]] | None = []`. -/
structure Dbt2LookerMeasure extends Dbt2LookerBaseField where
  name : String
  description : Option String := none
  drill_fields : Option (List String) := none
  filters : Option (List FilterDict) := some []
  sql : Option String := none
  sql_distinct_key : Option String := none
  type : LookerMeasureType
deriving DecidableEq, Repr

/-- `models.Dbt2LookerBaseDimension` (extends `Dbt2LookerBaseField`). -/
structure Dbt2LookerBaseDimension extends Dbt2LookerBaseField where
  case_sensitive : Option LookerBooleanType := none
  convert_tz : Option LookerBooleanType := none
  intervals : Option (List String) := none
  map_layer_name : Option String := none
  primary_key : Option LookerBooleanType := none
  sql_end : Option String := none
  sql_latitude : Option String := none
  sql_longitude : Option String := none
  sql_start : Option String := none
  timeframes : Option (List String) := none
deriving DecidableEq, Repr

/-- `models.Dbt2LookerCustomDimension` (model-level custom dimension:
`name` and `sql` are required, `type` defaults to `string`). -/
structure Dbt2LookerCustomDimension extends Dbt2LookerBaseDimension where
  name : String
  sql : String
  description : Option String := none
  type : LookerDimensionType := LookerDimensionType.string
deriving DecidableEq, Repr

/-- `models.Dbt2LookerDimension` (per-column dimension override:
everything optional). -/
structure Dbt2LookerDimension extends Dbt2LookerBaseDimension where
  name : Option String := none
  sql : Option String := none
  description : Option String := none
deriving DecidableEq, Repr

/-- `models.Dbt2LookerParameter`. -/
structure Dbt2LookerParameter where
  label : String
  description : String
  type : LookerParameterType
  group_label : Option String := none
  default_value : Option String := none
  allowed_values : Option (List LookerParameterAllowedValue) := none
deriving DecidableEq, Repr

/-- `models.Dbt2LookerMeta` = `models.DbtModelColumnMeta` (per-column meta
block).  models.py line 200 declares the override field as
`dimensions: Dbt2LookerDimension | None = Dbt2LookerDimension()`, embedded
at the non-None shape of its default.  The generator never reads this
spelling: it accesses `meta.dimension` (singular), which raises — see
`columnMetaDimension`. -/
structure DbtModelColumnMeta where
  measures : List Dbt2LookerMeasure := []
  dimensions : Dbt2LookerDimension := {}
deriving DecidableEq, Repr

/-- `models.DbtModelColumn`. -/
structure DbtModelColumn where
  name : String
  description : Option String := none
  data_type : Option String := none
  meta : DbtModelColumnMeta
deriving DecidableEq, Repr

/-- `models.Dbt2LookerExploreJoin`. -/
structure Dbt2LookerExploreJoin where
  join : String
  type : LookerJoinType := LookerJoinType.left_outer
  relationship : LookerJoinRelationship := LookerJoinRelationship.many_to_one
  sql_on : String
deriving DecidableEq, Repr

/-- `models.Dbt2LookerModelMeta` = `models.DbtModelMeta` (model-level meta
block); the `| None` alternatives of its list/dict fields are embedded at
their non-None default shapes, which is what the generator iterates. -/
structure DbtModelMeta where
  add_explore : Bool := false
  dimensions : List Dbt2LookerCustomDimension := []
  measures : List Dbt2LookerMeasure := []
  parameters : List (String × Dbt2LookerParameter) := []
  joins : List Dbt2LookerExploreJoin := []
deriving DecidableEq, Repr

/-- `models.DbtModel` (a manifest node with `resource_type == "model"`).
`columns` is a Python dict embedded as an insertion-ordered association
list; the generic `DbtNode.config` dict is not read by the generator and is
omitted. -/
structure DbtModel where
  unique_id : String
  relation_name : String
  db_schema : String
  name : String
  description : String
  columns : List (String × DbtModelColumn)
  tags : List String
  meta : DbtModelMeta
deriving DecidableEq, Repr

/-- ASCII lower-casing of one character (`str.lower` on the ASCII range). -/
def lowerChar (c : Char) : Char :=
  if 65 ≤ c.toNat ∧ c.toNat ≤ 90 then Char.ofNat (c.toNat + 32) else c

/-- ASCII upper-casing of one character (`str.upper` on the ASCII range). -/
def upperChar (c : Char) : Char :=
  if 97 ≤ c.toNat ∧ c.toNat ≤ 122 then Char.ofNat (c.toNat - 32) else c

/-- `str.lower()` (ASCII model). -/
def pyLower (s : String) : String := ⟨s.data.map lowerChar⟩

/-- `str.upper()` (ASCII model). -/
def pyUpper (s : String) : String := ⟨s.data.map upperChar⟩

/-- `str.capitalize()` (ASCII model): first character upper-cased, the rest
lower-cased. -/
def pyCapitalize (s : String) : String :=
  match s.data with
  | [] => ""
  | c :: cs => ⟨upperChar c :: cs.map lowerChar⟩

/-- `str.startswith(pre)`. -/
def pyStartswith (s pre : String) : Bool := pre.data.isPrefixOf s.data

/-- `str.removesuffix(suffix)`: drops one trailing occurrence of a non-empty
`suffix` when present, otherwise returns the string unchanged. -/
def pyRemovesuffix (s suffix : String) : String :=
  if suffix ≠ "" ∧ suffix.data.isSuffixOf s.data then
    ⟨s.data.take (s.data.length - suffix.data.length)⟩
  else s

/-- `models.DbtModel.case_insensitive_column_names` field validator: the
column map keys and each column's own `name` are lower-cased. -/
def case_insensitive_column_names (v : List (String × DbtModelColumn)) :
    List (String × DbtModelColumn) :=
  v.map fun p => (pyLower p.1, { p.2 with name := pyLower p.2.name })

/-- `models.Dbt2LookerMeasure.filters_are_singular_dicts` field validator:
each filter entry must contain exactly one key; checked entry by entry, the
first offending entry raises.  A `None` filters value is returned as-is. -/
def filters_singular_check : List FilterDict → Except PyErr Unit
  | [] => Except.ok ()
  | f :: fs =>
    if f.length ≠ 1 then
      Except.error (PyErr.valueError
        "Multiple filter names provided for a single filter in measure block")
    else filters_singular_check fs

/-- The validator itself: `if v is not None: ...; return v`. -/
def filters_are_singular_dicts (v : Option (List FilterDict)) :
    Except PyErr (Option (List FilterDict)) :=
  match v with
  | none => Except.ok none
  | some fs => (filters_singular_check fs).bind fun _ => Except.ok (some fs)

/-- A value stored in one of the generated LookML mappings: plain strings,
lists of strings, Python `None`, 1-tuples of strings (which the source
produces through trailing commas in `lookml_measure`), and lists of nested
string-valued dicts (links, filters, allowed values). -/
inductive LValue where
  | str : String → LValue
  | strList : List String → LValue
  | strTuple : List String → LValue
  | null : LValue
  | dictList : List (List (String × String)) → LValue
deriving DecidableEq, Repr

/-- A generated LookML mapping: a Python dict embedded as an
insertion-ordered association list with unique keys. -/
abbrev LDict := List (String × LValue)

/-- Python dict assignment `d[k] = v`: update the existing entry in place
(keys are unique, so the first occurrence is the only one), otherwise
append a new entry. -/
def dset : LDict → String → LValue → LDict
  | [], k, v => [(k, v)]
  | p :: ps, k, v => if p.1 = k then (k, v) :: ps else p :: dset ps k v

/-- Python dict lookup `d.get(k)`. -/
def dget : LDict → String → Option LValue
  | [], _ => none
  | p :: ps, k => if p.1 = k then some p.2 else dget ps k

/-- Truthiness of a Python `Optional[str]`: `None` and `""` are falsy. -/
def truthyStr : Option String → Bool
  | none => false
  | some s => s ≠ ""

/-- Truthiness of a Python `Optional[list]`: `None` and `[]` are falsy. -/
def truthyList {α : Type} : Option (List α) → Bool
  | none => false
  | some l => !l.isEmpty

/-- `a or b` for an optional list `a` and a list default `b` (both
`LookerBooleanType` members are truthy, so optional-enum truthiness is just
`isSome`, handled inline where needed). -/
def pyOrList {α : Type} (a : Option (List α)) (b : List α) : List α :=
  if truthyList a then a.getD [] else b

/-- `a or b` for optional strings `a` and a string default `b`. -/
def pyOrStr (a : Option String) (b : String) : String :=
  if truthyStr a then a.getD "" else b

/-- `generator.LOOKER_DTYPE_MAP`: per-adapter native SQL type → looker type. -/
def LOOKER_DTYPE_MAP : SupportedDbtAdapters → List (String × String)
  | .bigquery =>
    [("INT64", "number"), ("INTEGER", "number"), ("FLOAT", "number"),
     ("FLOAT64", "number"), ("NUMERIC", "number"), ("BIGNUMERIC", "number"),
     ("BOOLEAN", "yesno"), ("STRING", "string"), ("TIMESTAMP", "timestamp"),
     ("DATETIME", "datetime"), ("DATE", "date"), ("TIME", "string"),
     ("BOOL", "yesno"), ("ARRAY", "string"), ("GEOGRAPHY", "string"),
     ("BYTES", "string")]
  | .snowflake =>
    [("NUMBER", "number"), ("DECIMAL", "number"), ("NUMERIC", "number"),
     ("INT", "number"), ("INTEGER", "number"), ("BIGINT", "number"),
     ("SMALLINT", "number"), ("FLOAT", "number"), ("FLOAT4", "number"),
     ("FLOAT8", "number"), ("DOUBLE", "number"), ("DOUBLE PRECISION", "number"),
     ("REAL", "number"), ("VARCHAR", "string"), ("CHAR", "string"),
     ("CHARACTER", "string"), ("STRING", "string"), ("TEXT", "string"),
     ("BINARY", "string"), ("VARBINARY", "string"), ("BOOLEAN", "yesno"),
     ("DATE", "date"), ("DATETIME", "datetime"), ("TIME", "string"),
     ("TIMESTAMP", "timestamp"), ("TIMESTAMP_NTZ", "timestamp"),
     ("VARIANT", "string"), ("OBJECT", "string"), ("ARRAY", "string"),
     ("GEOGRAPHY", "string")]
  | .redshift =>
    [("SMALLINT", "number"), ("INT2", "number"), ("INTEGER", "number"),
     ("INT", "number"), ("INT4", "number"), ("BIGINT", "number"),
     ("INT8", "number"), ("DECIMAL", "number"), ("NUMERIC", "number"),
     ("REAL", "number"), ("FLOAT4", "number"), ("DOUBLE PRECISION", "number"),
     ("FLOAT8", "number"), ("FLOAT", "number"), ("BOOLEAN", "yesno"),
     ("BOOL", "yesno"), ("CHAR", "string"), ("CHARACTER", "string"),
     ("NCHAR", "string"), ("BPCHAR", "string"), ("VARCHAR", "string"),
     ("CHARACTER VARYING", "string"), ("NVARCHAR", "string"), ("TEXT", "string"),
     ("DATE", "date"), ("TIMESTAMP", "timestamp"),
     ("TIMESTAMP WITHOUT TIME ZONE", "timestamp"), ("GEOMETRY", "string"),
     ("TIME", "string"), ("TIME WITHOUT TIME ZONE", "string")]
  | .postgres =>
    [("XML", "string"), ("UUID", "string"), ("PG_LSN", "string"),
     ("MACADDR", "string"), ("JSON", "string"), ("JSONB", "string"),
     ("CIDR", "string"), ("INET", "string"), ("MONEY", "number"),
     ("SMALLINT", "number"), ("INT2", "number"), ("SMALLSERIAL", "number"),
     ("SERIAL2", "number"), ("INTEGER", "number"), ("INT", "number"),
     ("INT4", "number"), ("SERIAL", "number"), ("SERIAL4", "number"),
     ("BIGINT", "number"), ("INT8", "number"), ("BIGSERIAL", "number"),
     ("SERIAL8", "number"), ("DECIMAL", "number"), ("NUMERIC", "number"),
     ("REAL", "number"), ("FLOAT4", "number"), ("DOUBLE PRECISION", "number"),
     ("FLOAT8", "number"), ("FLOAT", "number"), ("BOOLEAN", "yesno"),
     ("BOOL", "yesno"), ("CHAR", "string"), ("CHARACTER", "string"),
     ("NCHAR", "string"), ("BPCHAR", "string"), ("VARCHAR", "string"),
     ("CHARACTER VARYING", "string"), ("NVARCHAR", "string"), ("TEXT", "string"),
     ("DATE", "date"), ("TIMESTAMP", "timestamp"),
     ("TIMESTAMP WITHOUT TIME ZONE", "timestamp"), ("GEOMETRY", "string"),
     ("TIME", "string"), ("TIME WITHOUT TIME ZONE", "string"),
     ("STRING", "string")]
  | .spark =>
    [("BYTE", "number"), ("SHORT", "number"), ("INTEGER", "number"),
     ("LONG", "number"), ("FLOAT", "number"), ("DOUBLE", "number"),
     ("DECIMAL", "number"), ("STRING", "string"), ("VARCHAR", "string"),
     ("CHAR", "string"), ("BOOLEAN", "yesno"), ("TIMESTAMP", "timestamp"),
     ("DATE", "datetime")]

/-- `generator.looker_date_time_types`. -/
def looker_date_time_types : List String := ["datetime", "timestamp"]

/-- `generator.looker_scalar_types`. -/
def looker_scalar_types : List String := ["number", "yesno", "string", "date"]

/-- `generator.looker_timeframes`. -/
def looker_timeframes : List String :=
  ["raw", "time", "date", "week", "month", "quarter", "year"]

/-- `generator.looker_intervals`. -/
def looker_intervals : List String := ["hour", "day"]

/-- The character `(` (written numerically to keep bracket-counting tools
happy). -/
def lpar : Char := Char.ofNat 40

/-- The character `)`. -/
def rpar : Char := Char.ofNat 41

/-- The character `,`. -/
def commaChar : Char := Char.ofNat 44

/-- A character matched by the regex class `[,\d]` (ASCII model of `\d`,
the only digits occurring in SQL type strings). -/
def isSizeChar (c : Char) : Bool := (48 ≤ c.toNat ∧ c.toNat ≤ 57) || c = commaChar

/-- `generator.normalise_spark_types`: `re.match(r"^[^\(]*", t).group(0)`,
i.e. the longest prefix containing no `(`. -/
def normalise_spark_types (column_type : String) : String :=
  ⟨column_type.data.takeWhile (fun c => c ≠ lpar)⟩

/-- Does `cs` begin with a non-empty run of `[,\d]` characters followed by
`)` — i.e. does `(` ++ `cs` begin with a match of `\([,\d]+\)`?  (The regex
cannot match a shorter run: every run character is not `)`.) -/
def startsSizeGroup (cs : List Char) : Bool :=
  let run := cs.takeWhile isSizeChar
  run ≠ [] &&
    (match cs.drop run.length with
     | r :: _ => r = rpar
     | [] => false)

/-- One pass of `re.sub(r"\([,\d]+\)", "", s)` over the character list:
scan left to right, delete each leftmost non-overlapping match, resume after
it.  Structured with explicit fuel (one unit per consumed character) so the
function is structurally recursive; `stripSizes` supplies sufficient fuel. -/
def stripSizesFuel : Nat → List Char → List Char
  | 0, l => l
  | _ + 1, [] => []
  | fuel + 1, c :: cs =>
    if c = lpar && startsSizeGroup cs then
      stripSizesFuel fuel (cs.drop ((cs.takeWhile isSizeChar).length + 1))
    else c :: stripSizesFuel fuel cs

/-- `re.sub(r"\([,\d]+\)", "", s)` on a character list. -/
def stripSizes (l : List Char) : List Char := stripSizesFuel l.length l

/-- Is there a match of `\([,\d]+\)` anywhere in `l`? -/
def hasSizeGroup : List Char → Bool
  | [] => false
  | c :: cs => (c = lpar && startsSizeGroup cs) || hasSizeGroup cs

/-- The normalisation performed inside `generator.map_adapter_type_to_looker`
on a (non-None) raw type string: take the prefix before the first `(` for
the spark adapter, remove `\([,\d]+\)` groups for the other adapters, then
upper-case. -/
def adapter_normalise (adapter_type : SupportedDbtAdapters) (column_type : String) :
    String :=
  pyUpper (if adapter_type = SupportedDbtAdapters.spark then
    normalise_spark_types column_type
  else ⟨stripSizes column_type.data⟩)

/-- `generator.map_adapter_type_to_looker`.  The raw type reaches `re.match`
(spark) or `re.sub` (other adapters) before anything else, so a column with
no declared type (`None`) raises `TypeError`; a declared but unrecognised
type yields `None` (with a warning, see
`map_adapter_type_warning_logged`). -/
def map_adapter_type_to_looker (adapter_type : SupportedDbtAdapters)
    (column_type : Option String) : Except PyErr (Option String) :=
  match column_type with
  | none => Except.error PyErr.typeError
  | some ct =>
      Except.ok ((LOOKER_DTYPE_MAP adapter_type).lookup (adapter_normalise adapter_type ct))

/-- The condition of the `logging.warning` call in
`map_adapter_type_to_looker` (lines 212-217): the warning fires exactly when
`column_type` is not `None` and the looked-up type is `None`.  Stated for a
non-None `column_type`, the only case that reaches the check. -/
def map_adapter_type_warning_logged (adapter_type : SupportedDbtAdapters)
    (ct : String) : Bool :=
  ((LOOKER_DTYPE_MAP adapter_type).lookup (adapter_normalise adapter_type ct)).isNone


/-- `LValue` equality with a string, as Python `d["type"] == "date"`:
`None` (and any non-string value) compares unequal. -/
def lvEqStr : LValue → String → Bool
  | .str s, t => s = t
  | _, _ => false

/-- Python `d["type"] in looker_date_time_types` membership test: `None`
is a member of no string list. -/
def lvMemStrs : LValue → List String → Bool
  | .str s, ts => s ∈ ts
  | _, _ => false

/-- The `dimension` argument of `generator.lookml_dimension`: either a
per-column `Dbt2LookerDimension` override (the source passes the column
alongside it) or a model-level `Dbt2LookerCustomDimension` (the source
passes `column=None`).  The source distinguishes the two with
`hasattr(dimension, "type")`, which holds exactly for custom dimensions. -/
inductive DimensionArg where
  | plain : Dbt2LookerDimension → DimensionArg
  | custom : Dbt2LookerCustomDimension → DimensionArg
deriving DecidableEq, Repr

/-- `dimension.name` (`name` is a required `str` on custom dimensions). -/
def DimensionArg.nameOpt : DimensionArg → Option String
  | .plain d => d.name
  | .custom d => some d.name

/-- `dimension.sql` (`sql` is a required `str` on custom dimensions). -/
def DimensionArg.sqlOpt : DimensionArg → Option String
  | .plain d => d.sql
  | .custom d => some d.sql

/-- `dimension.description`. -/
def DimensionArg.descriptionOpt : DimensionArg → Option String
  | .plain d => d.description
  | .custom d => d.description

/-- The shared `Dbt2LookerBaseDimension` fields of either kind of dimension
annotation. -/
def DimensionArg.baseDim : DimensionArg → Dbt2LookerBaseDimension
  | .plain d => d.toDbt2LookerBaseDimension
  | .custom d => d.toDbt2LookerBaseDimension

/-- The shared `Dbt2LookerBaseField` fields of either kind of dimension
annotation. -/
def DimensionArg.base (d : DimensionArg) : Dbt2LookerBaseField :=
  d.baseDim.toDbt2LookerBaseField

/-- `column.name` for an optional column: attribute access on `None`
raises. -/
def columnAttrName : Option DbtModelColumn → Except PyErr String
  | none => Except.error PyErr.attributeError
  | some c => Except.ok c.name

/-- `column.description` for an optional column. -/
def columnAttrDescription : Option DbtModelColumn → Except PyErr (Option String)
  | none => Except.error PyErr.attributeError
  | some c => Except.ok c.description

/-- `column.data_type` for an optional column. -/
def columnAttrDataType : Option DbtModelColumn → Except PyErr (Option String)
  | none => Except.error PyErr.attributeError
  | some c => Except.ok c.data_type

/-- `generator.lookml_add_common_properties`: copy the optional common
field properties into the dict when truthy, in source order. -/
def lookml_add_common_properties (looker_field : Dbt2LookerBaseField)
    (looker_dict : LDict) : LDict :=
  let d := looker_dict
  let d := if truthyStr looker_field.group_item_label then
    dset d "group_item_label" (LValue.str (looker_field.group_item_label.getD "")) else d
  let d := if truthyStr looker_field.group_label then
    dset d "group_label" (LValue.str (looker_field.group_label.getD "")) else d
  let d := if looker_field.hidden.isSome then
    dset d "hidden" (LValue.str ((looker_field.hidden.map LookerBooleanType.value).getD "")) else d
  let d := if truthyStr looker_field.html then
    dset d "html" (LValue.str (looker_field.html.getD "")) else d
  let d := if truthyStr looker_field.label then
    dset d "label" (LValue.str (looker_field.label.getD "")) else d
  let d := if truthyList looker_field.links then
    dset d "links" (LValue.dictList ((looker_field.links.getD []).map
      fun link => [("label", link.label), ("url", link.url)])) else d
  let d := if truthyList looker_field.required_access_grants then
    dset d "required_access_grants"
      (LValue.strList (looker_field.required_access_grants.getD [])) else d
  let d := if truthyList looker_field.required_fields then
    dset d "required_fields" (LValue.strList (looker_field.required_fields.getD [])) else d
  let d := if looker_field.suggestable.isSome then
    dset d "suggestable" (LValue.str ((looker_field.suggestable.map LookerBooleanType.value).getD "")) else d
  let d := if truthyList looker_field.tags then
    dset d "tags" (LValue.strList (looker_field.tags.getD [])) else d
  let d := if truthyStr looker_field.value_format then
    dset d "value_format" (LValue.str (looker_field.value_format.getD "")) else d
  let d := if looker_field.value_format_name.isSome then
    dset d "value_format_name"
      (LValue.str ((looker_field.value_format_name.map LookerValueFormatName.value).getD "")) else d
  let d := if truthyStr looker_field.view_label then
    dset d "view_label" (LValue.str (looker_field.view_label.getD "")) else d
  d

/-- `dimension.convert_tz or models.LookerBooleanType.no.value`: both enum
members are truthy, so the override wins whenever present. -/
def convert_tz_value (o : Option LookerBooleanType) : String :=
  match o with
  | some b => b.value
  | none => LookerBooleanType.no.value

/-- Lines 310-339 of `generator.lookml_dimension`: the pure tail of the
builder, after the fallible resolutions of name (`dimension.name or
column.name`), description and type.  `d["name"]` is written only by the
initial literal and by the dimension-group branch, so the value read by the
`pk_`/`fk_` prefix checks is the `nm2` bound here. -/
def lookml_dimension_core (nm : String) (descV ty : LValue)
    (dimension : DimensionArg) : LDict :=
  let d : LDict := dset [("name", LValue.str nm), ("description", descV)] "type" ty
  let d := if truthyStr dimension.sqlOpt then
    dset d "sql" (LValue.str (dimension.sqlOpt.getD "")) else d
  let d := if lvEqStr ty "date" || lvMemStrs ty looker_date_time_types then
    dset d "convert_tz" (LValue.str (convert_tz_value dimension.baseDim.convert_tz)) else d
  let d := if truthyList dimension.baseDim.intervals then
    dset d "intervals" (LValue.strList (pyOrList dimension.baseDim.intervals looker_intervals)) else d
  let d := if truthyStr dimension.baseDim.map_layer_name then
    dset d "map_layer_name" (LValue.str (dimension.baseDim.map_layer_name.getD "")) else d
  let d := if dimension.baseDim.primary_key.isSome then
    dset d "primary_key"
      (LValue.str ((dimension.baseDim.primary_key.map LookerBooleanType.value).getD "")) else d
  let d := if truthyStr dimension.baseDim.sql_end then
    dset d "sql_end" (LValue.str (dimension.baseDim.sql_end.getD "")) else d
  let d := if truthyStr dimension.baseDim.sql_latitude then
    dset d "sql_latitude" (LValue.str (dimension.baseDim.sql_latitude.getD "")) else d
  let d := if truthyStr dimension.baseDim.sql_longitude then
    dset d "sql_longitude" (LValue.str (dimension.baseDim.sql_longitude.getD "")) else d
  let d := if truthyStr dimension.baseDim.sql_start then
    dset d "sql_start" (LValue.str (dimension.baseDim.sql_start.getD "")) else d
  let d := if truthyList dimension.base.suggestions then
    dset d "suggestions" (LValue.strList (dimension.base.suggestions.getD [])) else d
  let isGroup := lvMemStrs ty looker_date_time_types
  let nm2 := if isGroup then pyRemovesuffix nm "_at" else nm
  let d := if isGroup then
    dset (dset d "name" (LValue.str nm2)) "timeframes"
      (LValue.strList (pyOrList dimension.baseDim.timeframes looker_timeframes))
  else d
  let d := lookml_add_common_properties dimension.base d
  let d := if pyStartswith nm2 "pk_" then
    dset (dset d "primary_key" (LValue.str LookerBooleanType.yes.value))
      "hidden" (LValue.str LookerBooleanType.yes.value)
  else d
  let d := if pyStartswith nm2 "fk_" then
    dset d "hidden" (LValue.str LookerBooleanType.yes.value) else d
  d

/-- `d["name"] = dimension.name or column.name`: the `column` side is
evaluated (and may raise on `None`) only when the annotation side is
falsy. -/
def resolve_dimension_name (dimension : DimensionArg)
    (column : Option DbtModelColumn) : Except PyErr String :=
  match dimension.nameOpt with
  | some s => if s = "" then columnAttrName column else Except.ok s
  | none => columnAttrName column

/-- `d["description"] = dimension.description or column.description`. -/
def resolve_dimension_description (dimension : DimensionArg)
    (column : Option DbtModelColumn) : Except PyErr (Option String) :=
  match dimension.descriptionOpt with
  | some s => if s = "" then columnAttrDescription column else Except.ok (some s)
  | none => columnAttrDescription column

/-- `d["type"] = dimension.type.value if hasattr(dimension, "type") else
map_adapter_type_to_looker(adapter_type, column.data_type)`. -/
def resolve_dimension_type (dimension : DimensionArg)
    (adapter_type : SupportedDbtAdapters) (column : Option DbtModelColumn) :
    Except PyErr LValue :=
  match dimension with
  | .custom d => Except.ok (LValue.str d.type.value)
  | .plain _ =>
      (columnAttrDataType column).bind fun dt =>
      (map_adapter_type_to_looker adapter_type dt).bind fun mapped =>
      Except.ok (match mapped with
        | some t => LValue.str t
        | none => LValue.null)

/-- `generator.lookml_dimension` (lines 296-339): resolve name, description
and type in source order (the first exception propagating), then run the
pure tail. -/
def lookml_dimension (dimension : DimensionArg)
    (adapter_type : SupportedDbtAdapters) (column : Option DbtModelColumn) :
    Except PyErr LDict :=
  (resolve_dimension_name dimension column).bind fun nm =>
  (resolve_dimension_description dimension column).bind fun desc =>
  (resolve_dimension_type dimension adapter_type column).bind fun ty =>
  Except.ok (lookml_dimension_core nm
    (match desc with
     | some s => LValue.str s
     | none => LValue.null) ty dimension)

/-- `column.meta.dimension`, as generator.py writes it (lines 260, 265,
286, 291, 385): the pydantic model `DbtModelColumnMeta` declares no field
of that name — models.py line 200 spells it `dimensions` — so this
attribute access raises `AttributeError` on every column. -/
def columnMetaDimension (column : DbtModelColumn) :
    Except PyErr Dbt2LookerDimension :=
  Except.error PyErr.attributeError

/-- The comprehension condition shared by the two column comprehensions in
the generator (`column.meta.dimension.enabled and
map_adapter_type_to_looker(adapter_type, column.data_type) in tys`):
the leading `column.meta.dimension` access raises, so the rest of the
condition (kept here as the source writes it) is never reached. -/
def column_enabled_with_type_in (adapter_type : SupportedDbtAdapters)
    (tys : List String) (column : DbtModelColumn) : Except PyErr Bool :=
  (columnMetaDimension column).bind fun dimension =>
  if dimension.enabled then
    (map_adapter_type_to_looker adapter_type column.data_type).bind fun mapped =>
    Except.ok (match mapped with
      | some t => t ∈ tys
      | none => false)
  else Except.ok false

/-- A list comprehension `[lookml_dimension(column.meta.dimension, adapter,
column) for column in columns if <condition>]`, evaluated left to right
with the first raised exception propagating: the condition raises
`AttributeError` at the first column, so the comprehension only completes
on a column-free model. -/
def column_dimensions_build (adapter_type : SupportedDbtAdapters)
    (tys : List String) : List DbtModelColumn → Except PyErr (List LDict)
  | [] => Except.ok []
  | c :: cs =>
      (column_enabled_with_type_in adapter_type tys c).bind fun keep =>
      if keep then
        (columnMetaDimension c).bind fun dimension =>
        (lookml_dimension (DimensionArg.plain dimension) adapter_type (some c)).bind fun d =>
        (column_dimensions_build adapter_type tys cs).bind fun rest =>
        Except.ok (d :: rest)
      else column_dimensions_build adapter_type tys cs

/-- A list comprehension mapping a fallible builder over a list, elements
evaluated left to right with the first raised exception propagating. -/
def except_map_list {α β : Type} (f : α → Except PyErr β) :
    List α → Except PyErr (List β)
  | [] => Except.ok []
  | x :: xs =>
      (f x).bind fun y =>
      (except_map_list f xs).bind fun ys =>
      Except.ok (y :: ys)

/-- `generator.lookml_dimensions_from_model`: the per-column comprehension
(which raises `AttributeError` at the first column) followed by one
dimension per model-level custom dimension whose declared type is in
`looker_scalar_types` (the model-level `meta.dimensions` list is spelled
consistently and works; the str-enum `dimension.type` compares equal to
its string value). -/
def lookml_dimensions_from_model (model : DbtModel)
    (adapter_type : SupportedDbtAdapters) : Except PyErr (List LDict) :=
  (column_dimensions_build adapter_type looker_scalar_types
      (model.columns.map Prod.snd)).bind fun column_dimensions =>
  (except_map_list
      (fun dim => lookml_dimension (DimensionArg.custom dim) adapter_type none)
      (model.meta.dimensions.filter fun dim =>
        dim.type.value ∈ looker_scalar_types)).bind fun custom_dimensions =>
  Except.ok (column_dimensions ++ custom_dimensions)

/-- `generator.lookml_dimension_groups_from_model`: the same per-column
comprehension restricted to mapped types in `looker_date_time_types`
(raising `AttributeError` at the first column like the dimensions
comprehension). -/
def lookml_dimension_groups_from_model (model : DbtModel)
    (adapter_type : SupportedDbtAdapters) : Except PyErr (List LDict) :=
  column_dimensions_build adapter_type looker_date_time_types
    (model.columns.map Prod.snd)

/-- The ASCII apostrophe, as produced by `str(KeyError)` around the missing
key. -/
def squote : String := ⟨[Char.ofNat 39]⟩

/-- The message of the `ValueError` raised by
`generator.lookml_measure_filters` when a filter references a column absent
from the model: the caught `KeyError` renders as the quoted column name in
both f-string interpolations. -/
def measure_filter_error_msg (uid col : String) : String :=
  "Model " ++ uid ++ " contains a measure that references a non_existent column: " ++
    squote ++ col ++ squote ++ "\n" ++
    "Ensure that dbt model " ++ uid ++ " contains a column: " ++ squote ++ col ++ squote

/-- The first filter key (scanning filters in order and each filter dict's
keys in order) that is absent from the model's column map — the key whose
`model.columns[column_name]` lookup raises `KeyError` in the
`columns = {...}` dict comprehension. -/
def filters_first_missing (columns : List (String × DbtModelColumn)) :
    List FilterDict → Option String
  | [] => none
  | f :: fs =>
      match f.find? (fun kv => (columns.lookup kv.1).isNone) with
      | some kv => some kv.1
      | none => filters_first_missing columns fs

/-- One key rewrite of `generator.lookml_measure_filters` (line 385):
`columns[column_name].meta.dimension.name or column_name`.  The dict lookup
succeeds (the `columns` dict was built from these very keys, and the
unreachable missing case is kept as an error), after which the
`meta.dimension` attribute access raises. -/
def lookml_rewrite_filter_entry (columns : List (String × DbtModelColumn))
    (kv : String × String) : Except PyErr (String × String) :=
  match columns.lookup kv.1 with
  | some c =>
      (columnMetaDimension c).bind fun dimension =>
      Except.ok (pyOrStr dimension.name kv.1, kv.2)
  | none => Except.error PyErr.attributeError

/-- `generator.lookml_measure_filters`: resolve every filter key against the
model's column map — the first unresolved key aborts with a `ValueError`
naming the model and the column (the `KeyError` arises in the
`columns = {...}` dict comprehension, before any `meta.dimension` access) —
then rebuild each filter dict with rewritten keys; the rewrite raises
`AttributeError` at the first key it touches. -/
def lookml_measure_filters (measure : Dbt2LookerMeasure) (model : DbtModel) :
    Except PyErr (List FilterDict) :=
  let filters := measure.filters.getD []
  match filters_first_missing model.columns filters with
  | some col =>
      Except.error (PyErr.valueError (measure_filter_error_msg model.unique_id col))
  | none =>
      except_map_list
        (fun f => except_map_list (lookml_rewrite_filter_entry model.columns) f)
        filters

/-- `generator.lookml_measure`.  In the column-backed branch the source
writes `m["sql"] = (measure.sql or f"$\x7bTABLE\x7d.{column.name}",)` and
`m["description"] = (measure.description or column.description or
f"{mtype} of {cname}",)` — the trailing commas make both values 1-tuples,
embedded as `LValue.strTuple`.  The columnless branch stores plain
strings. -/
def lookml_measure (measure : Dbt2LookerMeasure) (model : DbtModel)
    (adapter_type : SupportedDbtAdapters) (column : Option DbtModelColumn) :
    Except PyErr LDict :=
  let m : LDict := dset [("name", LValue.str measure.name)] "type"
    (LValue.str measure.type.value)
  let m := match column with
    | some c =>
        dset (dset m "sql"
            (LValue.strTuple [pyOrStr measure.sql ("$\x7bTABLE\x7d." ++ c.name)]))
          "description"
          (LValue.strTuple [pyOrStr measure.description
            (pyOrStr c.description
              (pyCapitalize measure.type.value ++ " of " ++ c.name))])
    | none =>
        let m := if truthyStr measure.sql then
          dset m "sql" (LValue.str (measure.sql.getD "")) else m
        let m := if truthyStr measure.description then
          dset m "description" (LValue.str (measure.description.getD "")) else m
        m
  (if truthyList measure.filters then
    (lookml_measure_filters measure model).bind fun fs =>
    Except.ok (dset m "filters" (LValue.dictList fs))
  else Except.ok m).bind fun m2 =>
  Except.ok (lookml_add_common_properties measure.toDbt2LookerBaseField m2)

/-- The per-column half of `generator.lookml_measures_from_model`:
`[lookml_measure(measure, model, adapter_type, column) for column in
model.columns.values() for measure in column.meta.measures]`. -/
def column_measures_build (model : DbtModel)
    (adapter_type : SupportedDbtAdapters) :
    List DbtModelColumn → Except PyErr (List LDict)
  | [] => Except.ok []
  | c :: cs =>
      (except_map_list
          (fun measure => lookml_measure measure model adapter_type (some c))
          c.meta.measures).bind fun ms =>
      (column_measures_build model adapter_type cs).bind fun rest =>
      Except.ok (ms ++ rest)

/-- `generator.lookml_measures_from_model`: the column-level measures in
column order, then the model-level measures (built with `column=None`). -/
def lookml_measures_from_model (model : DbtModel)
    (adapter_type : SupportedDbtAdapters) : Except PyErr (List LDict) :=
  (column_measures_build model adapter_type (model.columns.map Prod.snd)).bind
    fun col =>
  (except_map_list (fun measure => lookml_measure measure model adapter_type none)
    model.meta.measures).bind fun mdl =>
  Except.ok (col ++ mdl)

/-- `generator.lookml_parameter`. -/
def lookml_parameter (parameter_name : String)
    (parameter : Dbt2LookerParameter) : LDict :=
  let p : LDict := dset (dset (dset [("name", LValue.str parameter_name)]
    "label" (LValue.str parameter.label))
    "description" (LValue.str parameter.description))
    "type" (LValue.str parameter.type.value)
  let p := if truthyStr parameter.group_label then
    dset p "group_label" (LValue.str (parameter.group_label.getD "")) else p
  let p := if truthyStr parameter.default_value then
    dset p "default_value" (LValue.str (parameter.default_value.getD "")) else p
  let p := if truthyList parameter.allowed_values then
    dset p "allowed_values" (LValue.dictList ((parameter.allowed_values.getD []).map
      fun v => [("value", v.value), ("label", v.label)])) else p
  p

/-- `generator.lookml_parameters_from_model`. -/
def lookml_parameters_from_model (model : DbtModel) : List LDict :=
  model.meta.parameters.map fun pp => lookml_parameter pp.1 pp.2

/-- The nested `view` mapping built by
`generator.lookml_view_from_dbt_model` and handed to the external LookML
renderer (`lkml.dump`), the debug-JSON file write and the
`<model>.view.lkml` artifact naming are external collaborators per the
spec and are not modelled. -/
structure LookViewStructure where
  name : String
  sql_table_name : String
  dimension_groups : List LDict
  dimensions : List LDict
  parameters : List LDict
  measures : List LDict
deriving DecidableEq, Repr

/-- `generator.lookml_view_from_dbt_model` (the mapping-construction part):
the field lists are built in the source's dict-literal order, the first
raised exception propagating. -/
def lookml_view_from_dbt_model (model : DbtModel)
    (adapter_type : SupportedDbtAdapters) : Except PyErr LookViewStructure :=
  (lookml_dimension_groups_from_model model adapter_type).bind
    fun dimension_groups =>
  (lookml_dimensions_from_model model adapter_type).bind fun dimensions =>
  let parameters := lookml_parameters_from_model model
  (lookml_measures_from_model model adapter_type).bind fun measures =>
  Except.ok { name := model.name
              sql_table_name := model.relation_name
              dimension_groups := dimension_groups
              dimensions := dimensions
              parameters := parameters
              measures := measures }


/-- Substring containment at the character-list level: `sub` occurs
contiguously inside `hay`. -/
def strContainsSub (hay sub : String) : Prop :=
  ∃ l r, hay.data = l ++ sub.data ++ r

/-- Fixture: a sum measure with no explicit sql, description or filters. -/
def fix_measure_sum : Dbt2LookerMeasure :=
  { name := "total_revenue", type := LookerMeasureType.sum }

/-- Fixture: a numeric column carrying one column-level measure. -/
def fix_col_revenue : DbtModelColumn :=
  { name := "revenue", data_type := some "NUMERIC",
    meta := { measures := [fix_measure_sum] } }

/-- Fixture: the round-trip model — one scalar column with one column-level
measure, plus one model-level custom scalar dimension. -/
def fix_model_orders : DbtModel :=
  { unique_id := "model.test.orders"
    relation_name := "analytics.orders"
    db_schema := "analytics"
    name := "orders"
    description := "orders model"
    columns := [("revenue", fix_col_revenue)]
    tags := []
    meta := { dimensions := [{ name := "is_big"
                               sql := "$\x7bTABLE\x7d.revenue > 100"
                               description := some "large order flag"
                               type := LookerDimensionType.yesno }] } }

/-- Fixture: a date-typed column (maps to the scalar looker type `date`). -/
def fix_col_date : DbtModelColumn :=
  { name := "closed_on", data_type := some "DATE", meta := {} }

/-- Fixture: a dimension override requesting intervals with an empty list. -/
def fix_dim_empty_intervals : Dbt2LookerDimension := { intervals := some [] }

/-- Fixture: a dimension override with a non-empty intervals list. -/
def fix_dim_intervals_minute : Dbt2LookerDimension := { intervals := some ["minute"] }

/-- Fixture: a plain numeric column. -/
def fix_col_number : DbtModelColumn :=
  { name := "duration_hours", data_type := some "INT64", meta := {} }

/-- Fixture: a time-typed column named with the `_at` suffix. -/
def fix_col_created : DbtModelColumn :=
  { name := "created_at", data_type := some "TIMESTAMP", meta := {} }

/-- Fixture: a model holding only the time-typed column. -/
def fix_model_events : DbtModel :=
  { unique_id := "model.test.events"
    relation_name := "analytics.events"
    db_schema := "analytics"
    name := "events"
    description := ""
    columns := [("created_at", fix_col_created)]
    tags := []
    meta := {} }

/-- Fixture: a primary-key-named numeric column. -/
def fix_col_pk : DbtModelColumn :=
  { name := "pk_id", data_type := some "NUMERIC", meta := {} }

/-- Fixture: a foreign-key-named string column. -/
def fix_col_fk : DbtModelColumn :=
  { name := "fk_customer", data_type := some "STRING", meta := {} }

/-- Fixture: a column whose dimension override renames it. -/
def fix_col_status : DbtModelColumn :=
  { name := "status", data_type := some "TEXT",
    meta := { dimensions := { name := some "status_code" } } }

/-- Fixture: a plain text column. -/
def fix_col_region : DbtModelColumn :=
  { name := "region", data_type := some "TEXT", meta := {} }

/-- Fixture: a model with two columns for filter resolution. -/
def fix_model_filters : DbtModel :=
  { unique_id := "model.test.orders2"
    relation_name := "analytics.orders2"
    db_schema := "analytics"
    name := "orders2"
    description := ""
    columns := [("status", fix_col_status), ("region", fix_col_region)]
    tags := []
    meta := {} }

/-- Fixture: a measure whose filters all resolve (one key per filter). -/
def fix_measure_filters_good : Dbt2LookerMeasure :=
  { name := "active_count", type := LookerMeasureType.count,
    filters := some [[("status", "active")], [("region", "us")]] }

/-- Fixture: a measure filter referencing a column `foo` that no model in
these fixtures declares. -/
def fix_measure_filters_bad : Dbt2LookerMeasure :=
  { name := "foo_count", type := LookerMeasureType.count,
    filters := some [[("foo", "bar")]] }


theorem dget_dset (d : LDict) (k k2 : String) (v : LValue) :
    dget (dset d k v) k2 = if k2 = k then some v else dget d k2 := by
  induction d with
  | nil =>
      by_cases h : k2 = k
      · subst h; simp [dset, dget]
      · have h1 : ¬ k = k2 := fun hh => h hh.symm
        simp [dset, dget, h, h1]
  | cons p ps ih =>
      simp only [dset]
      by_cases hp : p.1 = k
      · rw [if_pos hp]
        by_cases h : k2 = k
        · subst h; simp [dget]
        · have h1 : ¬ k = k2 := fun hh => h hh.symm
          have h2 : ¬ p.1 = k2 := fun hh => h1 (hp.symm.trans hh)
          simp [dget, h, h1, h2]
      · rw [if_neg hp]
        by_cases h : k2 = k
        · subst h
          simp [dget, hp, ih]
        · by_cases hp2 : p.1 = k2
          · simp [dget, hp2, h]
          · simp [dget, hp2, ih, h]

theorem dget_ite (c : Prop) [Decidable c] (x y : LDict) (k : String) :
    dget (if c then x else y) k = if c then dget x k else dget y k :=
  apply_ite (fun d => dget d k) c x y

theorem dget_core_name (nm : String) (descV ty : LValue) (dim : DimensionArg) :
    dget (lookml_dimension_core nm descV ty dim) "name" =
      some (LValue.str (if lvMemStrs ty looker_date_time_types then
        pyRemovesuffix nm "_at" else nm)) := by
  by_cases hpk : pyStartswith (if lvMemStrs ty looker_date_time_types then pyRemovesuffix nm "_at" else nm) "pk_" = true <;>
  by_cases hfk : pyStartswith (if lvMemStrs ty looker_date_time_types then pyRemovesuffix nm "_at" else nm) "fk_" = true <;>
  simp [lookml_dimension_core, lookml_add_common_properties, dget_ite, dget_dset, hpk, hfk] <;>
  split <;> simp_all [dget]

theorem dget_core_type (nm : String) (descV ty : LValue) (dim : DimensionArg) :
    dget (lookml_dimension_core nm descV ty dim) "type" = some ty := by
  by_cases hpk : pyStartswith (if lvMemStrs ty looker_date_time_types then pyRemovesuffix nm "_at" else nm) "pk_" = true <;>
  by_cases hfk : pyStartswith (if lvMemStrs ty looker_date_time_types then pyRemovesuffix nm "_at" else nm) "fk_" = true <;>
  simp [lookml_dimension_core, lookml_add_common_properties, dget_ite, dget_dset, hpk, hfk, dget]

theorem dget_core_convert_tz (nm : String) (descV ty : LValue) (dim : DimensionArg) :
    dget (lookml_dimension_core nm descV ty dim) "convert_tz" =
      (if lvEqStr ty "date" || lvMemStrs ty looker_date_time_types then
        some (LValue.str (convert_tz_value dim.baseDim.convert_tz)) else none) := by
  by_cases hpk : pyStartswith (if lvMemStrs ty looker_date_time_types then pyRemovesuffix nm "_at" else nm) "pk_" = true <;>
  by_cases hfk : pyStartswith (if lvMemStrs ty looker_date_time_types then pyRemovesuffix nm "_at" else nm) "fk_" = true <;>
  by_cases hc : (lvEqStr ty "date" || lvMemStrs ty looker_date_time_types) = true <;>
  simp [lookml_dimension_core, lookml_add_common_properties, dget_ite, dget_dset, hpk, hfk, hc, dget]

theorem dget_core_timeframes (nm : String) (descV ty : LValue) (dim : DimensionArg) :
    dget (lookml_dimension_core nm descV ty dim) "timeframes" =
      (if lvMemStrs ty looker_date_time_types then
        some (LValue.strList (pyOrList dim.baseDim.timeframes looker_timeframes)) else none) := by
  by_cases hpk : pyStartswith (if lvMemStrs ty looker_date_time_types then pyRemovesuffix nm "_at" else nm) "pk_" = true <;>
  by_cases hfk : pyStartswith (if lvMemStrs ty looker_date_time_types then pyRemovesuffix nm "_at" else nm) "fk_" = true <;>
  by_cases hg : lvMemStrs ty looker_date_time_types = true <;>
  simp [lookml_dimension_core, lookml_add_common_properties, dget_ite, dget_dset, hpk, hfk, hg, dget]

theorem dget_core_intervals (nm : String) (descV ty : LValue) (dim : DimensionArg) :
    dget (lookml_dimension_core nm descV ty dim) "intervals" =
      (if truthyList dim.baseDim.intervals then
        some (LValue.strList (pyOrList dim.baseDim.intervals looker_intervals)) else none) := by
  by_cases hpk : pyStartswith (if lvMemStrs ty looker_date_time_types then pyRemovesuffix nm "_at" else nm) "pk_" = true <;>
  by_cases hfk : pyStartswith (if lvMemStrs ty looker_date_time_types then pyRemovesuffix nm "_at" else nm) "fk_" = true <;>
  by_cases hi : truthyList dim.baseDim.intervals = true <;>
  simp [lookml_dimension_core, lookml_add_common_properties, dget_ite, dget_dset, hpk, hfk, hi, dget]

theorem dget_core_primary_key (nm : String) (descV ty : LValue) (dim : DimensionArg) :
    dget (lookml_dimension_core nm descV ty dim) "primary_key" =
      (if pyStartswith (if lvMemStrs ty looker_date_time_types then
          pyRemovesuffix nm "_at" else nm) "pk_" then
        some (LValue.str "yes")
       else if dim.baseDim.primary_key.isSome then
        some (LValue.str ((dim.baseDim.primary_key.map LookerBooleanType.value).getD ""))
       else none) := by
  by_cases hpk : pyStartswith (if lvMemStrs ty looker_date_time_types then pyRemovesuffix nm "_at" else nm) "pk_" = true <;>
  by_cases hfk : pyStartswith (if lvMemStrs ty looker_date_time_types then pyRemovesuffix nm "_at" else nm) "fk_" = true <;>
  by_cases hs : dim.baseDim.primary_key.isSome = true <;>
  simp [lookml_dimension_core, lookml_add_common_properties, dget_ite, dget_dset, hpk, hfk, hs, dget,
    LookerBooleanType.value]

theorem dget_core_hidden (nm : String) (descV ty : LValue) (dim : DimensionArg) :
    dget (lookml_dimension_core nm descV ty dim) "hidden" =
      (if pyStartswith (if lvMemStrs ty looker_date_time_types then
          pyRemovesuffix nm "_at" else nm) "fk_" then
        some (LValue.str "yes")
       else if pyStartswith (if lvMemStrs ty looker_date_time_types then
          pyRemovesuffix nm "_at" else nm) "pk_" then
        some (LValue.str "yes")
       else if dim.base.hidden.isSome then
        some (LValue.str ((dim.base.hidden.map LookerBooleanType.value).getD ""))
       else none) := by
  by_cases hpk : pyStartswith (if lvMemStrs ty looker_date_time_types then pyRemovesuffix nm "_at" else nm) "pk_" = true <;>
  by_cases hfk : pyStartswith (if lvMemStrs ty looker_date_time_types then pyRemovesuffix nm "_at" else nm) "fk_" = true <;>
  by_cases hs : dim.base.hidden.isSome = true <;>
  simp [lookml_dimension_core, lookml_add_common_properties, dget_ite, dget_dset, hpk, hfk, hs, dget,
    LookerBooleanType.value]

theorem except_bind_ok {α β : Type} {e : Except PyErr α} {f : α → Except PyErr β}
    {b : β} (h : e.bind f = Except.ok b) :
    ∃ a, e = Except.ok a ∧ f a = Except.ok b := by
  cases e with
  | error err => simp [Except.bind] at h
  | ok a => exact ⟨a, rfl, by simpa [Except.bind] using h⟩

theorem lookml_dimension_ok {dim : DimensionArg} {a : SupportedDbtAdapters}
    {col : Option DbtModelColumn} {d : LDict}
    (h : lookml_dimension dim a col = Except.ok d) :
    ∃ nm descV ty, d = lookml_dimension_core nm descV ty dim := by
  unfold lookml_dimension at h
  obtain ⟨nm, h1, h⟩ := except_bind_ok h
  obtain ⟨desc, h2, h⟩ := except_bind_ok h
  obtain ⟨ty, h3, h⟩ := except_bind_ok h
  simp only [Except.ok.injEq] at h
  exact ⟨nm, _, ty, h.symm⟩

theorem filters_singular_check_ok (v : List FilterDict)
    (h : ∀ f ∈ v, f.length = 1) : filters_singular_check v = Except.ok () := by
  induction v with
  | nil => rfl
  | cons f fs ih =>
      have hf : f.length = 1 := h f (by simp)
      simp [filters_singular_check, hf, ih fun g hg => h g (by simp [hg])]

theorem filters_singular_check_error (v : List FilterDict)
    (h : ∃ f ∈ v, f.length ≠ 1) :
    filters_singular_check v = Except.error (PyErr.valueError
      "Multiple filter names provided for a single filter in measure block") := by
  induction v with
  | nil => simp at h
  | cons f fs ih =>
      by_cases hf : f.length = 1
      · obtain ⟨g, hg, hglen⟩ := h
        rcases List.mem_cons.mp hg with rfl | hgtail
        · exact absurd hf hglen
        · simp [filters_singular_check, hf, ih ⟨g, hgtail, hglen⟩]
      · simp [filters_singular_check, hf]

/-- Claim C5: constructing a measure fails with the "multiple filter names"
validation error exactly when some entry of its filters list does not
contain exactly one key (the length of a dict with nodup keys being its key
count); a filters list in which every entry has exactly one key is accepted
unchanged. -/
theorem measure_filters_validator_iff (v : List FilterDict)
    (hkeys : ∀ f ∈ v, (f.map Prod.fst).Nodup) :
    ((∃ f ∈ v, f.length ≠ 1) ↔
      filters_are_singular_dicts (some v) =
        Except.error (PyErr.valueError
          "Multiple filter names provided for a single filter in measure block")) ∧
    ((∀ f ∈ v, f.length = 1) →
      filters_are_singular_dicts (some v) = Except.ok (some v)) := by
  constructor
  · constructor
    · intro h
      simp [filters_are_singular_dicts, filters_singular_check_error v h, Except.bind]
    · intro h
      by_contra hno
      push_neg at hno
      simp [filters_are_singular_dicts, filters_singular_check_ok v hno, Except.bind] at h
  · intro h
    simp [filters_are_singular_dicts, filters_singular_check_ok v h, Except.bind]

/-- Witness for C5: the two-key filter dict from the spec raises the
"multiple filter names" error. -/
theorem measure_filters_validator_iff_witness :
    filters_are_singular_dicts (some [[("status", "active"), ("region", "us")]]) =
      Except.error (PyErr.valueError
        "Multiple filter names provided for a single filter in measure block") :=
  (measure_filters_validator_iff [[("status", "active"), ("region", "us")]]
      (by decide)).1.mp
    ⟨[("status", "active"), ("region", "us")], by decide, by decide⟩

/-- Claim C2 (evaluation at the failing input): a column with no declared
type reaches `re.match`/`re.sub` as `None` and the mapping raises
`TypeError` instead of the claimed non-fatal silent skip.  A declared but
unrecognised type (e.g. bigquery `ARRAY<STRING>`) does make
`map_adapter_type_to_looker` yield no type without raising and fire the
warning — but the claimed skip of the column in dimension generation is
unobservable: the builders' comprehension condition raises
`AttributeError` on `column.meta.dimension` (generator.py line 265;
models.py line 200 names the field `dimensions`) before the mapper is
consulted. -/
theorem map_adapter_type_none_raises :
    map_adapter_type_to_looker SupportedDbtAdapters.bigquery none
      = Except.error PyErr.typeError ∧
    map_adapter_type_to_looker SupportedDbtAdapters.spark none
      = Except.error PyErr.typeError ∧
    map_adapter_type_to_looker SupportedDbtAdapters.bigquery (some "ARRAY<STRING>")
      = Except.ok none ∧
    map_adapter_type_warning_logged SupportedDbtAdapters.bigquery "ARRAY<STRING>" = true ∧
    column_enabled_with_type_in SupportedDbtAdapters.bigquery looker_scalar_types
      { name := "tags", data_type := some "ARRAY<STRING>", meta := {} }
      = Except.error PyErr.attributeError :=
  ⟨rfl, rfl, rfl, rfl, rfl⟩

/-- Claim C3 (evaluation at the failing input): for a column-backed measure
the source stores `sql` and `description` as 1-tuples (trailing commas),
not as the plain default strings the claim describes — though the defaulting
chain inside the tuple (`measure.sql or $\x7bTABLE\x7d.<col>`;
`measure.description or column.description or <Type> of <col>`) is the
claimed one. -/
theorem lookml_measure_emits_tuples :
    Except.map (fun m => (dget m "sql", dget m "description"))
        (lookml_measure fix_measure_sum fix_model_orders
          SupportedDbtAdapters.bigquery (some fix_col_revenue)) =
      Except.ok (some (LValue.strTuple ["$\x7bTABLE\x7d.revenue"]),
                 some (LValue.strTuple ["Sum of revenue"])) ∧
    LValue.strTuple ["$\x7bTABLE\x7d.revenue"] ≠ LValue.str "$\x7bTABLE\x7d.revenue" ∧
    LValue.strTuple ["Sum of revenue"] ≠ LValue.str "Sum of revenue" :=
  ⟨rfl, by decide, by decide⟩

theorem startswith_fk_not_pk (s : String) (h : pyStartswith s "fk_" = true) :
    pyStartswith s "pk_" = false := by
  unfold pyStartswith at h ⊢
  cases hd : s.data with
  | nil => rw [hd] at h; exact absurd h (by decide)
  | cons c cs =>
      rw [hd] at h
      rw [show ("fk_".data.isPrefixOf (c :: cs)) =
        (Char.ofNat 102 == c && [Char.ofNat 107, Char.ofNat 95].isPrefixOf cs) from rfl] at h
      rw [show ("pk_".data.isPrefixOf (c :: cs)) =
        (Char.ofNat 112 == c && [Char.ofNat 107, Char.ofNat 95].isPrefixOf cs) from rfl]
      rw [Bool.and_eq_true] at h
      have hc : c = Char.ofNat 102 := (beq_iff_eq.mp h.1).symm
      subst hc
      rfl

/-- Claim C8: for every built dimension or dimension_group whose final field
name starts with `pk_`, the output carries `primary_key: yes` and
`hidden: yes` regardless of annotation overrides; for one whose final name
starts with `fk_`, the output carries `hidden: yes` while `primary_key`
stays exactly whatever the annotation produced (the prefix never forces
it). -/
theorem dimension_pk_fk_prefixes (dim : DimensionArg) (a : SupportedDbtAdapters)
    (col : Option DbtModelColumn) (d : LDict) (n : String)
    (hok : lookml_dimension dim a col = Except.ok d)
    (hname : dget d "name" = some (LValue.str n)) :
    (pyStartswith n "pk_" = true →
      dget d "primary_key" = some (LValue.str "yes") ∧
      dget d "hidden" = some (LValue.str "yes")) ∧
    (pyStartswith n "fk_" = true →
      dget d "hidden" = some (LValue.str "yes") ∧
      dget d "primary_key" =
        (if dim.baseDim.primary_key.isSome then
          some (LValue.str ((dim.baseDim.primary_key.map LookerBooleanType.value).getD ""))
         else none)) := by
  obtain ⟨nm, descV, ty, rfl⟩ := lookml_dimension_ok hok
  rw [dget_core_name] at hname
  simp only [Option.some.injEq, LValue.str.injEq] at hname
  constructor
  · intro hpk
    rw [dget_core_primary_key, dget_core_hidden, hname, if_pos hpk]
    refine ⟨rfl, ?_⟩
    by_cases hfk : pyStartswith n "fk_" = true
    · rw [if_pos hfk]
    · rw [if_neg (by simp [hfk]), if_pos hpk]
  · intro hfk
    have hnpk := startswith_fk_not_pk n hfk
    rw [dget_core_hidden, dget_core_primary_key, hname, if_pos hfk,
      if_neg (by simp [hnpk])]
    exact ⟨rfl, rfl⟩

/-- Witness for C8: a `pk_id` number column gets forced `primary_key: yes`
and `hidden: yes`; an `fk_customer` column gets `hidden: yes` and no
`primary_key` key at all. -/
theorem dimension_pk_fk_prefixes_witness :
    ∃ d1 d2,
      lookml_dimension (DimensionArg.plain {}) SupportedDbtAdapters.bigquery
        (some fix_col_pk) = Except.ok d1 ∧
      dget d1 "primary_key" = some (LValue.str "yes") ∧
      dget d1 "hidden" = some (LValue.str "yes") ∧
      lookml_dimension (DimensionArg.plain {}) SupportedDbtAdapters.bigquery
        (some fix_col_fk) = Except.ok d2 ∧
      dget d2 "hidden" = some (LValue.str "yes") ∧
      dget d2 "primary_key" = none := by
  refine ⟨_, _, rfl, ?_, ?_, rfl, ?_, ?_⟩
  · exact ((dimension_pk_fk_prefixes (DimensionArg.plain {}) SupportedDbtAdapters.bigquery
      (some fix_col_pk) _ "pk_id" rfl rfl).1 (by decide)).1
  · exact ((dimension_pk_fk_prefixes (DimensionArg.plain {}) SupportedDbtAdapters.bigquery
      (some fix_col_pk) _ "pk_id" rfl rfl).1 (by decide)).2
  · exact ((dimension_pk_fk_prefixes (DimensionArg.plain {}) SupportedDbtAdapters.bigquery
      (some fix_col_fk) _ "fk_customer" rfl rfl).2 (by decide)).1
  · exact ((dimension_pk_fk_prefixes (DimensionArg.plain {}) SupportedDbtAdapters.bigquery
      (some fix_col_fk) _ "fk_customer" rfl rfl).2 (by decide)).2

/-- Claim C10: a dimension whose resolved type is `date` — a scalar looker
type, routed to plain dimensions and not to dimension_groups — still gets a
`convert_tz` key (override when given, else "no"), and no group shaping
(`timeframes` absent). -/
theorem date_dimension_convert_tz (dim : DimensionArg) (a : SupportedDbtAdapters)
    (col : Option DbtModelColumn) (d : LDict)
    (hok : lookml_dimension dim a col = Except.ok d)
    (hty : dget d "type" = some (LValue.str "date")) :
    dget d "convert_tz" = some (LValue.str (convert_tz_value dim.baseDim.convert_tz)) ∧
    dget d "timeframes" = none ∧
    "date" ∈ looker_scalar_types ∧ "date" ∉ looker_date_time_types := by
  obtain ⟨nm, descV, ty, rfl⟩ := lookml_dimension_ok hok
  rw [dget_core_type] at hty
  simp only [Option.some.injEq] at hty
  subst hty
  refine ⟨?_, ?_, by decide, by decide⟩
  · rw [dget_core_convert_tz, if_pos (by decide)]
  · rw [dget_core_timeframes, if_neg (by decide)]

/-- Witness for C10: a bigquery `DATE` column with no overrides yields a
dimension with `convert_tz: no` and no timeframes. -/
theorem date_dimension_convert_tz_witness :
    ∃ d, lookml_dimension (DimensionArg.plain {}) SupportedDbtAdapters.bigquery
        (some fix_col_date) = Except.ok d ∧
      dget d "convert_tz" = some (LValue.str "no") ∧
      dget d "timeframes" = none := by
  refine ⟨_, rfl, ?_, ?_⟩
  · exact (date_dimension_convert_tz (DimensionArg.plain {}) SupportedDbtAdapters.bigquery
      (some fix_col_date) _ rfl rfl).1
  · exact (date_dimension_convert_tz (DimensionArg.plain {}) SupportedDbtAdapters.bigquery
      (some fix_col_date) _ rfl rfl).2.1

/-- Claim C9 (amended): an `intervals` key is emitted exactly when the
annotation supplies a non-empty intervals list, and then equals that list;
an annotation requesting intervals without explicit values (empty list, or
no intervals at all) yields no `intervals` key — the `[hour, day]` default
of `looker_intervals` is unreachable. -/
theorem dimension_intervals_emitted_iff (dim : DimensionArg)
    (a : SupportedDbtAdapters) (col : Option DbtModelColumn) (d : LDict)
    (hok : lookml_dimension dim a col = Except.ok d) :
    (∀ l, dim.baseDim.intervals = some l → l ≠ [] →
      dget d "intervals" = some (LValue.strList l)) ∧
    (dim.baseDim.intervals = none ∨ dim.baseDim.intervals = some [] →
      dget d "intervals" = none) := by
  obtain ⟨nm, descV, ty, rfl⟩ := lookml_dimension_ok hok
  constructor
  · intro l hl hne
    rw [dget_core_intervals, if_pos (by simp [truthyList, hl, hne])]
    simp [pyOrList, truthyList, hl, hne]
  · intro h
    rcases h with h | h <;>
      rw [dget_core_intervals, if_neg (by simp [truthyList, h])]

/-- Witness for C9 (amended): a non-empty override `["minute"]` is emitted
verbatim. -/
theorem dimension_intervals_emitted_iff_witness :
    ∃ d, lookml_dimension (DimensionArg.plain fix_dim_intervals_minute)
        SupportedDbtAdapters.bigquery (some fix_col_number) = Except.ok d ∧
      dget d "intervals" = some (LValue.strList ["minute"]) := by
  refine ⟨_, rfl, ?_⟩
  exact (dimension_intervals_emitted_iff (DimensionArg.plain fix_dim_intervals_minute)
    SupportedDbtAdapters.bigquery (some fix_col_number) _ rfl).1 ["minute"] rfl (by decide)

/-- Counterexample for C9 as stated: a dimension annotation requesting
intervals with an empty list yields no `intervals` key at all, not the
claimed `[hour, day]` default (`looker_intervals`). -/
theorem dimension_intervals_default_never_emitted :
    Except.map (fun d => dget d "intervals")
        (lookml_dimension (DimensionArg.plain fix_dim_empty_intervals)
          SupportedDbtAdapters.bigquery (some fix_col_number)) = Except.ok none ∧
    (none : Option LValue) ≠ some (LValue.strList looker_intervals) :=
  ⟨rfl, by decide⟩

theorem msg_contains_uid (uid col : String) :
    strContainsSub (measure_filter_error_msg uid col) uid :=
  ⟨"Model ".data,
   (" contains a measure that references a non_existent column: " ++ squote ++ col ++
     squote ++ "\n" ++ "Ensure that dbt model " ++ uid ++ " contains a column: " ++
     squote ++ col ++ squote).data,
   by simp [measure_filter_error_msg, String.data_append, List.append_assoc]⟩

theorem msg_contains_col (uid col : String) :
    strContainsSub (measure_filter_error_msg uid col) col :=
  ⟨("Model " ++ uid ++ " contains a measure that references a non_existent column: " ++
     squote).data,
   (squote ++ "\n" ++ "Ensure that dbt model " ++ uid ++ " contains a column: " ++
     squote ++ col ++ squote).data,
   by simp [measure_filter_error_msg, String.data_append, List.append_assoc]⟩

theorem charToNat_ofNat_small (n : Nat) (h : n < 55296) : (Char.ofNat n).toNat = n := by
  have hv : n.isValidChar := Or.inl h
  unfold Char.ofNat
  rw [dif_pos hv]
  unfold Char.ofNatAux Char.toNat
  simp [UInt32.ofNat', UInt32.toNat]

theorem upperChar_idem (c : Char) : upperChar (upperChar c) = upperChar c := by
  unfold upperChar
  by_cases h : 97 ≤ c.toNat ∧ c.toNat ≤ 122
  · rw [if_pos h]
    have h1 : (Char.ofNat (c.toNat - 32)).toNat = c.toNat - 32 :=
      charToNat_ofNat_small _ (by omega)
    rw [if_neg (by omega)]
  · rw [if_neg h, if_neg h]

theorem upperChar_eq_fixed (c x : Char)
    (hx1 : ¬(97 ≤ x.toNat ∧ x.toNat ≤ 122))
    (hx2 : ¬(65 ≤ x.toNat ∧ x.toNat ≤ 90)) :
    (upperChar c = x) ↔ (c = x) := by
  unfold upperChar
  by_cases h : 97 ≤ c.toNat ∧ c.toNat ≤ 122
  · rw [if_pos h]
    have h1 : (Char.ofNat (c.toNat - 32)).toNat = c.toNat - 32 :=
      charToNat_ofNat_small _ (by omega)
    constructor
    · intro hh
      have := congrArg Char.toNat hh
      rw [h1] at this
      exact absurd (by omega : 65 ≤ x.toNat ∧ x.toNat ≤ 90) hx2
    · intro hh
      have := congrArg Char.toNat hh
      exact absurd (by omega : 97 ≤ x.toNat ∧ x.toNat ≤ 122) hx1
  · rw [if_neg h]

theorem isSizeChar_upperChar (c : Char) : isSizeChar (upperChar c) = isSizeChar c := by
  unfold isSizeChar
  by_cases h : 97 ≤ c.toNat ∧ c.toNat ≤ 122
  · have h1 : (upperChar c).toNat = c.toNat - 32 := by
      unfold upperChar
      rw [if_pos h]
      exact charToNat_ofNat_small _ (by omega)
    have hnc : ¬(upperChar c = commaChar) := fun hh => by
      have := congrArg Char.toNat hh
      rw [h1, show commaChar.toNat = 44 from rfl] at this
      omega
    have hnc2 : ¬(c = commaChar) := fun hh => by
      have := congrArg Char.toNat hh
      rw [show commaChar.toNat = 44 from rfl] at this
      omega
    have hd1 : ¬(48 ≤ (upperChar c).toNat ∧ (upperChar c).toNat ≤ 57) := by
      rw [h1]; omega
    have hd2 : ¬(48 ≤ c.toNat ∧ c.toNat ≤ 57) := by omega
    simp [hd1, hd2, hnc, hnc2]
  · have h1 : upperChar c = c := by unfold upperChar; rw [if_neg h]
    rw [h1]

theorem upperChar_eq_lpar (c : Char) : (upperChar c = lpar) ↔ (c = lpar) :=
  upperChar_eq_fixed c lpar (by decide) (by decide)

theorem upperChar_eq_rpar (c : Char) : (upperChar c = rpar) ↔ (c = rpar) :=
  upperChar_eq_fixed c rpar (by decide) (by decide)

theorem upperChar_ne_lpar (c : Char) : (decide (upperChar c ≠ lpar)) = decide (c ≠ lpar) := by
  by_cases h : c = lpar
  · simp [h, (upperChar_eq_lpar lpar).mpr rfl]
  · have h2 : ¬ upperChar c = lpar := fun hh => h ((upperChar_eq_lpar c).mp hh)
    simp [h, h2]

theorem takeWhile_isSizeChar_map (cs : List Char) :
    (cs.map upperChar).takeWhile isSizeChar = (cs.takeWhile isSizeChar).map upperChar := by
  rw [List.takeWhile_map]
  have hcomp : isSizeChar ∘ upperChar = isSizeChar := funext fun c => isSizeChar_upperChar c
  rw [hcomp]

theorem startsSizeGroup_map (cs : List Char) :
    startsSizeGroup (cs.map upperChar) = startsSizeGroup cs := by
  unfold startsSizeGroup
  dsimp only
  rw [takeWhile_isSizeChar_map, List.length_map, ← List.map_drop]
  cases hdrop : cs.drop (cs.takeWhile isSizeChar).length with
  | nil => simp
  | cons r rs =>
      simp only [List.map_cons]
      by_cases hr : r = rpar
      · simp [hr, (upperChar_eq_rpar rpar).mpr rfl]
      · have h2 : ¬ upperChar r = rpar := fun hh => hr ((upperChar_eq_rpar r).mp hh)
        simp [hr, h2]

theorem stripSizesFuel_map_upperChar (f : Nat) (l : List Char) :
    stripSizesFuel f (l.map upperChar) = (stripSizesFuel f l).map upperChar := by
  induction f generalizing l with
  | zero => rfl
  | succ f ih =>
      cases l with
      | nil => rfl
      | cons c cs =>
          simp only [List.map_cons, stripSizesFuel]
          rw [startsSizeGroup_map]
          by_cases hc : c = lpar
          · by_cases hs : startsSizeGroup cs = true
            · have hcond : (decide (c = lpar) && startsSizeGroup cs) = true := by
                simp [hc, hs]
              have hcond2 : (decide (upperChar c = lpar) && startsSizeGroup cs) = true := by
                simp [(upperChar_eq_lpar c).mpr hc, hs]
              rw [if_pos hcond2, if_pos hcond]
              rw [takeWhile_isSizeChar_map, List.length_map, ← List.map_drop, ih]
            · have hcond : ¬ (decide (c = lpar) && startsSizeGroup cs) = true := by
                simp [hs]
              have hcond2 : ¬ (decide (upperChar c = lpar) && startsSizeGroup cs) = true := by
                simp [hs]
              rw [if_neg hcond2, if_neg hcond, ih]
              rfl
          · have hc2 : ¬ upperChar c = lpar := fun hh => hc ((upperChar_eq_lpar c).mp hh)
            have hcond : ¬ (decide (c = lpar) && startsSizeGroup cs) = true := by
              simp [hc]
            have hcond2 : ¬ (decide (upperChar c = lpar) && startsSizeGroup cs) = true := by
              simp [hc2]
            rw [if_neg hcond2, if_neg hcond, ih]
            rfl

theorem stripSizesFuel_of_no_group (f : Nat) (l : List Char)
    (h : hasSizeGroup l = false) : stripSizesFuel f l = l := by
  induction f generalizing l with
  | zero => rfl
  | succ f ih =>
      cases l with
      | nil => rfl
      | cons c cs =>
          unfold hasSizeGroup at h
          rw [Bool.or_eq_false_iff] at h
          simp only [stripSizesFuel]
          rw [if_neg (by simp [h.1])]
          rw [ih cs h.2]

theorem stripSizes_map_upperChar (l : List Char) :
    stripSizes (l.map upperChar) = (stripSizes l).map upperChar := by
  unfold stripSizes
  rw [List.length_map]
  exact stripSizesFuel_map_upperChar l.length l

theorem takeWhile_idem {α : Type} (p : α → Bool) (l : List α) :
    (l.takeWhile p).takeWhile p = l.takeWhile p := by
  induction l with
  | nil => rfl
  | cons a l ih =>
      by_cases h : p a = true
      · simp [List.takeWhile_cons, h, ih]
      · simp [List.takeWhile_cons, h]

theorem spark_norm_list (l : List Char) :
    (((l.takeWhile (fun c => decide (c ≠ lpar))).map upperChar).takeWhile
        (fun c => decide (c ≠ lpar))).map upperChar
      = (l.takeWhile (fun c => decide (c ≠ lpar))).map upperChar := by
  rw [List.takeWhile_map]
  have hp : ((fun c => decide (c ≠ lpar)) ∘ upperChar) = (fun c => decide (c ≠ lpar)) :=
    funext fun c => upperChar_ne_lpar c
  rw [hp, takeWhile_idem, List.map_map,
    show upperChar ∘ upperChar = upperChar from funext upperChar_idem]

theorem nonspark_norm_list (t : List Char) (hg : hasSizeGroup t = false) :
    (stripSizes (t.map upperChar)).map upperChar = t.map upperChar := by
  rw [stripSizes_map_upperChar,
    show stripSizes t = t from stripSizesFuel_of_no_group t.length t hg,
    List.map_map, show upperChar ∘ upperChar = upperChar from funext upperChar_idem]

/-- Claim C7 (amended): the type normalisation (prefix before the first
parenthesis for spark; removal of parenthesised digit/comma groups for the
other adapters; then upper-casing) is idempotent for spark on every string,
and for the other adapters on every string whose single-pass result
contains no remaining parenthesised digit/comma group — which covers all
real SQL type strings; lookup is case-insensitive: `NUMERIC(10,2)` and
`numeric(10,2)` both map to `number`, and `DECIMAL(38,9)` normalises to
`DECIMAL` under both normalisation flavours. -/
theorem adapter_type_normalisation (a : SupportedDbtAdapters) (s : String) :
    (adapter_normalise SupportedDbtAdapters.spark
        (adapter_normalise SupportedDbtAdapters.spark s) =
      adapter_normalise SupportedDbtAdapters.spark s) ∧
    (a ≠ SupportedDbtAdapters.spark →
      hasSizeGroup (stripSizes s.data) = false →
      adapter_normalise a (adapter_normalise a s) = adapter_normalise a s) ∧
    map_adapter_type_to_looker SupportedDbtAdapters.postgres (some "NUMERIC(10,2)") =
      Except.ok (some "number") ∧
    map_adapter_type_to_looker SupportedDbtAdapters.postgres (some "numeric(10,2)") =
      Except.ok (some "number") ∧
    map_adapter_type_to_looker SupportedDbtAdapters.bigquery (some "NUMERIC(10,2)") =
      Except.ok (some "number") ∧
    map_adapter_type_to_looker SupportedDbtAdapters.bigquery (some "numeric(10,2)") =
      Except.ok (some "number") ∧
    adapter_normalise SupportedDbtAdapters.postgres "DECIMAL(38,9)" = "DECIMAL" ∧
    adapter_normalise SupportedDbtAdapters.spark "DECIMAL(38,9)" = "DECIMAL" := by
  refine ⟨?_, ?_, rfl, rfl, rfl, rfl, rfl, rfl⟩
  · unfold adapter_normalise
    rw [if_pos rfl, if_pos rfl]
    exact congrArg String.mk (spark_norm_list s.data)
  · intro ha hg
    unfold adapter_normalise
    rw [if_neg ha, if_neg ha]
    exact congrArg String.mk (nonspark_norm_list (stripSizes s.data) hg)

/-- Witness for C7 (amended): postgres normalisation is idempotent at
`NUMERIC(10,2)`, whose stripped form has no remaining size group. -/
theorem adapter_type_normalisation_witness :
    (SupportedDbtAdapters.postgres ≠ SupportedDbtAdapters.spark ∧
      hasSizeGroup (stripSizes ("NUMERIC(10,2)").data) = false) ∧
    adapter_normalise SupportedDbtAdapters.postgres
        (adapter_normalise SupportedDbtAdapters.postgres "NUMERIC(10,2)") =
      adapter_normalise SupportedDbtAdapters.postgres "NUMERIC(10,2)" :=
  ⟨⟨by decide, by decide⟩,
   (adapter_type_normalisation SupportedDbtAdapters.postgres "NUMERIC(10,2)").2.1
     (by decide) (by decide)⟩

/-- Counterexample for C7 as stated (idempotence for every raw type
string): for the size-stripping adapters, removing `\([,\d]+\)` groups can
create a new group — `((1)1)` strips to `(1)` in one pass and to `""` in
two, so applying the normalisation twice differs from applying it once. -/
theorem adapter_type_normalisation_counterexample :
    adapter_normalise SupportedDbtAdapters.postgres
        (adapter_normalise SupportedDbtAdapters.postgres "((1)1)") ≠
      adapter_normalise SupportedDbtAdapters.postgres "((1)1)" ∧
    adapter_normalise SupportedDbtAdapters.postgres "((1)1)" = "(1)" ∧
    adapter_normalise SupportedDbtAdapters.postgres
        (adapter_normalise SupportedDbtAdapters.postgres "((1)1)") = "" := by
  refine ⟨by decide, rfl, rfl⟩


/-- Claim C1 (evaluation at the failing input): for any model with at least
one column the dimension builders raise `AttributeError` — generator.py
reads `column.meta.dimension` (lines 260, 265, 286, 291) while models.py
line 200 declares the field as `dimensions` — so building the round-trip
view crashes instead of producing the claimed dimension,
dimension_group and measure lists. -/
theorem lookml_view_crashes_on_column_meta :
    lookml_view_from_dbt_model fix_model_orders SupportedDbtAdapters.bigquery =
      Except.error PyErr.attributeError ∧
    lookml_dimensions_from_model fix_model_orders SupportedDbtAdapters.bigquery =
      Except.error PyErr.attributeError ∧
    lookml_dimension_groups_from_model fix_model_orders SupportedDbtAdapters.bigquery =
      Except.error PyErr.attributeError :=
  ⟨rfl, rfl, rfl⟩

/-- Claim C4 (evaluation): the unresolvable-column half behaves as claimed —
a filter on nonexistent `foo` in model `model.test.orders` raises a
`ValueError` whose message contains both the model id and `foo`, the
`KeyError` arising in the `columns = {...}` comprehension before any
`meta.dimension` access — but the success half never happens: with every
key resolvable, the rewrite at generator.py line 385 reads
`columns[column_name].meta.dimension.name` and raises `AttributeError`
(models.py line 200 names the field `dimensions`) instead of returning the
rewritten filter list. -/
theorem measure_filters_cross_reference :
    lookml_measure_filters fix_measure_filters_bad fix_model_orders =
      Except.error (PyErr.valueError
        (measure_filter_error_msg "model.test.orders" "foo")) ∧
    strContainsSub (measure_filter_error_msg "model.test.orders" "foo")
      "model.test.orders" ∧
    strContainsSub (measure_filter_error_msg "model.test.orders" "foo") "foo" ∧
    lookml_measure_filters fix_measure_filters_good fix_model_filters =
      Except.error PyErr.attributeError :=
  ⟨rfl, msg_contains_uid "model.test.orders" "foo",
   msg_contains_col "model.test.orders" "foo", rfl⟩

/-- Claim C6 (evaluation at the failing input): the dimension_group builder
raises `AttributeError` at its first column (generator.py line 291 reads
`column.meta.dimension.enabled`; models.py line 200 names the field
`dimensions`), so no dimension_group is ever emitted.  The shaping the
claim describes does hold of `lookml_dimension` itself when the per-column
override is handed to it directly: a bigquery `TIMESTAMP` column
`created_at` yields the name `created` (suffix stripped), the default
timeframes `looker_timeframes` and `convert_tz: no`. -/
theorem dimension_group_builder_crashes :
    lookml_dimension_groups_from_model fix_model_events SupportedDbtAdapters.bigquery =
      Except.error PyErr.attributeError ∧
    Except.map (fun d => (dget d "name", dget d "timeframes", dget d "convert_tz"))
        (lookml_dimension (DimensionArg.plain {}) SupportedDbtAdapters.bigquery
          (some fix_col_created)) =
      Except.ok (some (LValue.str "created"),
        some (LValue.strList looker_timeframes), some (LValue.str "no")) :=
  ⟨rfl, rfl⟩
